import Mathlib

/-!
Verification of the AMQP adapter in src/message_queue/adapters/amqp_adapter.py.

The adapter is embedded shallowly: the mutable attributes of an AMQPAdapter
instance become the fields of AdapterState, and every method becomes a pure
function from a state (plus the external inputs the method consumes) to a
StepResult recording the successor state, the trace of operations issued on
the underlying channel/connection, and whether the method raised.

Python attributes that do not exist before first assignment (basic_ack,
prefetch_count, _consume_worker) are modelled as Option fields that start out
none.  Accessing a method on a cleared (None) channel or connection raises
AttributeError in Python; this is modelled by the PyError.attributeError
outcome.  The broker, the worker callback and the success or failure of each
connection attempt are external inputs, passed in as oracles.
-/

namespace MessageQueue

/-- Connection credentials and parameters fixed at construction time
(host, port, user, password, vhost). -/
structure ConnectionConfig where
  host : String
  port : Nat
  user : String
  password : String
  vhost : String
  deriving DecidableEq, Repr

/-- Custom key/value arguments for queue_declare (a Python dict). -/
abbrev Arguments := List (String × String)

/-- The pika.BasicProperties the adapter constructs in format_message. -/
structure BasicProperties where
  content_type : String
  delivery_mode : Int
  deriving DecidableEq, Repr

/-- One operation issued on the underlying pika channel or connection.
Method runs are recorded as a trace of these. -/
inductive ChannelOp where
  | queueDeclare (queue : String) (passive durable exclusive auto_delete : Bool)
      (arguments : Option Arguments)
  | basicQos (prefetch_count : Int)
  | basicPublish (exchange : String) (routing_key : Option String) (body : String)
      (properties : BasicProperties)
  | basicConsume (queue : Option String)
  | startConsuming
  | stopConsuming
  | basicAck (delivery_tag : Nat)
  | channelClose
  | connectionClose
  deriving DecidableEq, Repr

/-- A Python exception escaping an adapter method. -/
inductive PyError where
  | attributeError
  | raised (msg : String)
  deriving DecidableEq, Repr

/-- The mutable attributes of an AMQPAdapter instance.  queue is None until
configurate_queue runs; basic_ack, prefetch_count and consume_worker do not
exist (none) until first assigned; connection and channel hold opaque handles
(identified by the index of the connection attempt that produced them). -/
structure AdapterState where
  config : ConnectionConfig
  queue : Option String
  basic_ack : Option Bool
  prefetch_count : Option Int
  connection : Option Nat
  channel : Option Nat
  consume_worker : Option Nat
  deriving DecidableEq, Repr

/-- Result of running one adapter method: successor state, trace of channel
operations issued before any exception, and the exception if one escaped. -/
structure StepResult where
  state : AdapterState
  ops : List ChannelOp
  error : Option PyError
  deriving DecidableEq, Repr

/-- Python truthiness of the adapter's queue attribute, as tested by the
guard of configurate_queue: None and the empty string are falsy. -/
def pyFalsyQueue : Option String → Bool
  | none => true
  | some s => s.isEmpty

/-- The keyword arguments of configurate_queue; none models an absent key,
so that kwargs.get(key, default) becomes Option.getD.  For arguments the
default is already None, so absent and None collapse into none. -/
structure QueueKwargs where
  queue : Option String := none
  passive : Option Bool := none
  durable : Option Bool := none
  exclusive : Option Bool := none
  auto_delete : Option Bool := none
  arguments : Option Arguments := none
  prefetch_count : Option Int := none
  basic_ack : Option Bool := none
  deriving DecidableEq, Repr

/-- Embedding of AMQPAdapter.configurate_queue.  Guarded by the Python
truthiness of self.queue; on the configuring branch it first assigns queue,
basic_ack and prefetch_count, then calls self.channel.queue_declare (an
AttributeError if channel is None), then basic_qos when prefetch_count > 0. -/
def configurate_queue (st : AdapterState) (kw : QueueKwargs) : StepResult :=
  if pyFalsyQueue st.queue then
    let q := kw.queue.getD ""
    let ba := kw.basic_ack.getD true
    let pc := kw.prefetch_count.getD 0
    let st1 := { st with queue := some q, basic_ack := some ba, prefetch_count := some pc }
    match st.channel with
    | none => { state := st1, ops := [], error := some PyError.attributeError }
    | some _ =>
        let declareOp := ChannelOp.queueDeclare q (kw.passive.getD false) (kw.durable.getD true)
          (kw.exclusive.getD false) (kw.auto_delete.getD false) kw.arguments
        let qosOps := if 0 < pc then [ChannelOp.basicQos pc] else []
        { state := st1, ops := declareOp :: qosOps, error := none }
  else
    { state := st, ops := [], error := none }

/-- Embedding of AMQPAdapter.close: self.channel.close(), then
self.connection.close(), then clear queue, connection and channel to None.
A cleared channel or connection makes the corresponding attribute access
raise, leaving the state as it was at the point of the raise. -/
def close (st : AdapterState) : StepResult :=
  match st.channel with
  | none => { state := st, ops := [], error := some PyError.attributeError }
  | some _ =>
      match st.connection with
      | none => { state := st, ops := [ChannelOp.channelClose], error := some PyError.attributeError }
      | some _ =>
          { state := { st with queue := none, connection := none, channel := none },
            ops := [ChannelOp.channelClose, ChannelOp.connectionClose],
            error := none }

/-- The properties mapping of a Message, with the two keys format_message
reads; none models an absent key. -/
structure MessageProperties where
  exchange : Option String := none
  delivery_mode : Option Int := none
  deriving DecidableEq, Repr

/-- The dict returned by Message.get_content: a properties mapping and an
opaque body. -/
structure MessageContent where
  properties : MessageProperties
  body : String
  deriving DecidableEq, Repr

/-- Modelled from the spec: the Message class is not under src/; the spec
describes it as a logical envelope with properties (mapping including
optional exchange and delivery_mode) and body (opaque payload), constructed
by the caller and passed by reference into send. -/
structure Message where
  content : MessageContent
  deriving DecidableEq, Repr

/-- Modelled from the spec: get_content returns the envelope's content
(properties and body) as the dict format_message consumes. -/
def Message.get_content (m : Message) : MessageContent := m.content

/-- The keyword dict built by format_message and splatted into
channel.basic_publish. -/
structure AMQPMessage where
  body : String
  routing_key : Option String
  exchange : String
  properties : BasicProperties
  deriving DecidableEq, Repr

/-- Embedding of AMQPAdapter.format_message: exchange defaults to the empty
string, delivery_mode defaults to 2, routing_key is self.queue, body passes
through, content_type is fixed to application/json. -/
def format_message (st : AdapterState) (message : MessageContent) : AMQPMessage :=
  let exchange := message.properties.exchange.getD ""
  let delivery_mode := message.properties.delivery_mode.getD 2
  { body := message.body
    routing_key := st.queue
    exchange := exchange
    properties := { content_type := "application/json", delivery_mode := delivery_mode } }

/-- Embedding of AMQPAdapter.send: format the message content, then
self.channel.basic_publish (an AttributeError if channel is None). -/
def send (st : AdapterState) (message : Message) : StepResult :=
  let amqp_message := format_message st message.get_content
  match st.channel with
  | none => { state := st, ops := [], error := some PyError.attributeError }
  | some _ =>
      { state := st,
        ops := [ChannelOp.basicPublish amqp_message.exchange amqp_message.routing_key
                  amqp_message.body amqp_message.properties],
        error := none }

/-- Embedding of AMQPAdapter.consume_acknowledge: channel.basic_ack with the
given delivery tag. -/
def consume_acknowledge (tag : Nat) : List ChannelOp :=
  [ChannelOp.basicAck tag]

/-- The delivery metadata (pika method frame) carried with a delivered
message; only delivery_tag is read by the adapter. -/
structure DeliveryMethod where
  delivery_tag : Nat
  deriving DecidableEq, Repr

/-- Embedding of AMQPAdapter.consume_callback.  runWorker is an oracle giving
the outcome of invoking the stored self._consume_worker on this delivery:
ok () when the worker returns normally, error e when it raises.  The code
calls the worker and then, on the next line with no try/finally,
consume_acknowledge with method.delivery_tag; a raising worker therefore
propagates before any acknowledgement is issued. -/
def consume_callback (runWorker : Option Nat → Except PyError Unit)
    (st : AdapterState) (method : DeliveryMethod) : List ChannelOp × Option PyError :=
  match runWorker st.consume_worker with
  | Except.error e => ([], some e)
  | Except.ok _ => (consume_acknowledge method.delivery_tag, none)

/-- How the blocking channel.start_consuming call ends: returns normally, is
interrupted by KeyboardInterrupt, or lets some other exception escape. -/
inductive ConsumeOutcome where
  | normal
  | interrupted
  | raisedOther (e : PyError)
  deriving DecidableEq, Repr

/-- Embedding of AMQPAdapter.consume: store the worker, basic_consume on
self.queue, then start_consuming inside a try that catches only
KeyboardInterrupt; on interrupt it stop_consuming and close. -/
def consume (st : AdapterState) (worker : Nat) (outcome : ConsumeOutcome) : StepResult :=
  let st1 := { st with consume_worker := some worker }
  match st1.channel with
  | none => { state := st1, ops := [], error := some PyError.attributeError }
  | some _ =>
      let pre := [ChannelOp.basicConsume st1.queue, ChannelOp.startConsuming]
      match outcome with
      | ConsumeOutcome.normal => { state := st1, ops := pre, error := none }
      | ConsumeOutcome.raisedOther e => { state := st1, ops := pre, error := some e }
      | ConsumeOutcome.interrupted =>
          let r := close st1
          { state := r.state, ops := pre ++ ChannelOp.stopConsuming :: r.ops, error := r.error }

/-- If attempt k fails but some attempt at or after k succeeds, then some
attempt at or after k + 1 succeeds. -/
theorem attempts_shift {attempts : Nat → Bool} {k : Nat}
    (h : ∃ n, attempts (k + n) = true) (hk : ¬ attempts k = true) :
    ∃ n, attempts (k + 1 + n) = true := by
  obtain ⟨n, hn⟩ := h
  cases n with
  | zero => exact absurd hn hk
  | succ m =>
      refine ⟨m, ?_⟩
      have hkm : k + 1 + m = k + (m + 1) := by omega
      rw [hkm]
      exact hn

/-- The index of the first success strictly decreases when a failed attempt
is skipped; this is the termination measure for connect. -/
theorem find_shift_lt {attempts : Nat → Bool} {k : Nat}
    (h : ∃ n, attempts (k + n) = true) (hk : ¬ attempts k = true) :
    Nat.find (attempts_shift h hk) < Nat.find h := by
  have hN := Nat.find_spec h
  rcases Nat.eq_zero_or_pos (Nat.find h) with h0 | hpos
  · rw [h0] at hN
    exact absurd hN hk
  · obtain ⟨M, hM⟩ : ∃ M, Nat.find h = M + 1 := ⟨Nat.find h - 1, by omega⟩
    have hM1 : attempts (k + 1 + M) = true := by
      have hx : k + 1 + M = k + (M + 1) := by omega
      rw [hx, ← hM]
      exact hN
    have hle : Nat.find (attempts_shift h hk) ≤ M := Nat.find_min' _ hM1
    omega

/-- Embedding of AMQPAdapter.connect.  The success or failure of each
BlockingConnection/channel attempt is an oracle attempts : Nat → Bool; the
code catches any exception, logs a warning and calls itself again, so the
function recurses from attempt k to attempt k + 1 until the first success
and returns the index of the successful attempt.  Totality (the termination
argument) is exactly the eventually-succeeds hypothesis. -/
def connect (attempts : Nat → Bool) (k : Nat) (h : ∃ n, attempts (k + n) = true) : Nat :=
  if hk : attempts k = true then k
  else connect attempts (k + 1) (attempts_shift h hk)
termination_by Nat.find h
decreasing_by exact find_shift_lt h hk

/-- connect returns a successful attempt. -/
theorem connect_attempt_true (attempts : Nat → Bool) (k : Nat)
    (h : ∃ n, attempts (k + n) = true) :
    attempts (connect attempts k h) = true := by
  induction k, h using connect.induct attempts with
  | case1 k h hk =>
      unfold connect
      rw [dif_pos hk]
      exact hk
  | case2 k h hk ih =>
      unfold connect
      rw [dif_neg hk]
      exact ih

/-- connect never returns an attempt before its starting index. -/
theorem connect_le (attempts : Nat → Bool) (k : Nat)
    (h : ∃ n, attempts (k + n) = true) :
    k ≤ connect attempts k h := by
  induction k, h using connect.induct attempts with
  | case1 k h hk =>
      unfold connect
      rw [dif_pos hk]
  | case2 k h hk ih =>
      unfold connect
      rw [dif_neg hk]
      omega

/-- Every attempt between the starting index and the one connect returns was
a failure: connect retried on every earlier failed attempt. -/
theorem connect_min (attempts : Nat → Bool) (k : Nat)
    (h : ∃ n, attempts (k + n) = true) :
    ∀ j, k ≤ j → j < connect attempts k h → attempts j = false := by
  induction k, h using connect.induct attempts with
  | case1 k h hk =>
      intro j hkj hjlt
      rw [connect, dif_pos hk] at hjlt
      omega
  | case2 k h hk ih =>
      intro j hkj hjlt
      rw [connect, dif_neg hk] at hjlt
      rcases Nat.eq_or_lt_of_le hkj with heq | hlt
      · subst heq
        exact Bool.not_eq_true _ |>.mp hk
      · exact ih j hlt hjlt

/-- The attribute values set by AMQPAdapter.__init__ before it calls
connect: queue is None and nothing else is configured yet. -/
def initialState (config : ConnectionConfig) : AdapterState :=
  { config := config, queue := none, basic_ack := none, prefetch_count := none,
    connection := none, channel := none, consume_worker := none }

/-- Embedding of AMQPAdapter.__init__: store the connection parameters, set
self.queue = None, then connect, which loops until the first successful
attempt and stores the resulting connection and channel handles. -/
def initAdapter (config : ConnectionConfig) (attempts : Nat → Bool)
    (h : ∃ n, attempts n = true) : AdapterState :=
  let m := connect attempts 0 (by simpa using h)
  { initialState config with connection := some m, channel := some m }

/-! Concrete fixtures used by counterexamples and witnesses. -/

/-- The default connection parameters of the adapter constructor. -/
def cfgDefault : ConnectionConfig :=
  { host := "localhost", port := 5672, user := "guest", password := "guest", vhost := "/" }

/-- A connected adapter with a configured non-empty queue, as after
construction, connect and configurate_queue with a queue name. -/
def connectedConfigured : AdapterState :=
  { config := cfgDefault, queue := some "python.publish.test", basic_ack := some true,
    prefetch_count := some 0, connection := some 0, channel := some 0, consume_worker := some 7 }

/-- A connected adapter on which configurate_queue has not yet run. -/
def connectedFresh : AdapterState :=
  { config := cfgDefault, queue := none, basic_ack := none, prefetch_count := none,
    connection := some 0, channel := some 0, consume_worker := none }

/-- A worker-run oracle for a worker that raises on every delivery. -/
def raisingWorker : Option Nat → Except PyError Unit :=
  fun _ => Except.error (PyError.raised "worker failed")

/-- A worker-run oracle for a worker that returns normally on every delivery. -/
def normalWorker : Option Nat → Except PyError Unit :=
  fun _ => Except.ok ()

/-! Claim theorems. -/

/-- C1 counterexample: on a connected configured adapter, when the worker
raises on a delivery with delivery tag 7, the consume path issues no channel
operation at all (in particular no basic_ack of tag 7) and the worker's
exception escapes, refuting acknowledgement regardless of worker outcome. -/
theorem consume_callback_raise_no_ack_cex :
    (consume_callback raisingWorker connectedConfigured ⟨7⟩).1 = [] ∧
    ChannelOp.basicAck 7 ∉ (consume_callback raisingWorker connectedConfigured ⟨7⟩).1 ∧
    (consume_callback raisingWorker connectedConfigured ⟨7⟩).2 =
      some (PyError.raised "worker failed") := by
  refine ⟨rfl, ?_, rfl⟩
  simp [consume_callback, raisingWorker]

/-- C1 (amended): for every delivered message the consume path invokes the
worker on the stored callback and, exactly when the worker returns normally,
acknowledges the message by its delivery tag; when the worker raises, the
exception propagates and no acknowledgement is issued. -/
theorem consume_callback_ack_on_normal_return (runWorker : Option Nat → Except PyError Unit)
    (st : AdapterState) (method : DeliveryMethod) :
    consume_callback runWorker st method =
      match runWorker st.consume_worker with
      | Except.ok _ => ([ChannelOp.basicAck method.delivery_tag], none)
      | Except.error e => ([], some e) := by
  unfold consume_callback consume_acknowledge
  cases runWorker st.consume_worker <;> rfl

/-- C2 counterexample: on a connected fresh adapter, a first
configurate_queue call with all defaults sets queue to the empty string,
which is Python-falsy, so a second call with queue q2 is not a no-op: it
redeclares and overwrites the configuration of the first call. -/
theorem configurate_queue_empty_name_not_idempotent_cex :
    (configurate_queue connectedFresh {}).state.queue = some "" ∧
    (configurate_queue (configurate_queue connectedFresh {}).state
        { queue := some "q2" }).state.queue = some "q2" ∧
    (configurate_queue (configurate_queue connectedFresh {}).state
        { queue := some "q2" }).ops ≠ [] := by
  refine ⟨rfl, rfl, ?_⟩
  decide

/-- C2 (amended): first-call-wins holds only when the configured queue name
is non-empty: if the adapter's queue attribute holds a non-empty name, every
later configurate_queue call with any arguments is a no-op that leaves the
state unchanged and issues no channel operation. -/
theorem configurate_queue_noop_nonempty (st : AdapterState) (kw : QueueKwargs)
    (q : String) (hq : st.queue = some q) (hne : q ≠ "") :
    configurate_queue st kw = { state := st, ops := [], error := none } := by
  have hfalse : pyFalsyQueue st.queue = false := by
    rw [hq]
    show q.isEmpty = false
    cases hqe : q.isEmpty
    · rfl
    · exact absurd ((String.isEmpty_iff q).mp hqe) hne
  unfold configurate_queue
  rw [hfalse]
  rfl

/-- C2 witness: on the connected configured adapter, whose queue name is the
non-empty python.publish.test, a later call with different arguments is a
no-op. -/
theorem configurate_queue_noop_nonempty_witness :
    connectedConfigured.queue = some "python.publish.test" ∧
    configurate_queue connectedConfigured { queue := some "other", prefetch_count := some 9 } =
      { state := connectedConfigured, ops := [], error := none } :=
  ⟨rfl, configurate_queue_noop_nonempty connectedConfigured
    { queue := some "other", prefetch_count := some 9 } "python.publish.test" rfl (by decide)⟩

/-- C5: when the worker returns normally on a delivery, the consume path
issues exactly one channel operation, a basic_ack of exactly the delivery
tag carried in that delivery's method metadata, and raises nothing. -/
theorem consume_callback_ack_exact_tag_once (runWorker : Option Nat → Except PyError Unit)
    (st : AdapterState) (method : DeliveryMethod)
    (h : runWorker st.consume_worker = Except.ok ()) :
    consume_callback runWorker st method = ([ChannelOp.basicAck method.delivery_tag], none) := by
  unfold consume_callback consume_acknowledge
  rw [h]

/-- C5 witness: a normally returning worker on a delivery with tag 42 leads
to exactly the single acknowledgement of tag 42. -/
theorem consume_callback_ack_exact_tag_once_witness :
    consume_callback normalWorker connectedConfigured ⟨42⟩ =
      ([ChannelOp.basicAck 42], none) :=
  consume_callback_ack_exact_tag_once normalWorker connectedConfigured ⟨42⟩ rfl

/-- C3: on an adapter with a configured queue and a live channel, send
publishes with routing_key equal to the configured queue name, exchange from
the message properties defaulting to the empty string, delivery_mode from
the message properties defaulting to 2, content_type fixed to
application/json, and the body passed through unchanged; the state is left
untouched and nothing is raised. -/
theorem send_publish_shape (st : AdapterState) (m : Message) (q : String) (c : Nat)
    (hq : st.queue = some q) (hc : st.channel = some c) :
    send st m =
      { state := st,
        ops := [ChannelOp.basicPublish (m.content.properties.exchange.getD "") (some q)
                  m.content.body
                  { content_type := "application/json",
                    delivery_mode := m.content.properties.delivery_mode.getD 2 }],
        error := none } := by
  unfold send format_message Message.get_content
  rw [hc, hq]

/-- C3 witness: a message with empty properties publishes on the default
exchange with delivery_mode 2 and routing_key python.publish.test. -/
theorem send_publish_shape_witness :
    send connectedConfigured { content := { properties := {}, body := "payload" } } =
      { state := connectedConfigured,
        ops := [ChannelOp.basicPublish "" (some "python.publish.test") "payload"
                  { content_type := "application/json", delivery_mode := 2 }],
        error := none } :=
  send_publish_shape connectedConfigured
    { content := { properties := {}, body := "payload" } } "python.publish.test" 0 rfl rfl

/-- C4: on its first call (queue attribute still None) with a live channel,
configurate_queue stores queue, basic_ack and prefetch_count with defaults
empty string, true and 0, declares the queue with defaults passive false,
durable true, exclusive false, auto_delete false, arguments none, and issues
a basic_qos equal to prefetch_count exactly when prefetch_count > 0. -/
theorem configurate_queue_first_call_defaults (st : AdapterState) (kw : QueueKwargs)
    (c : Nat) (hq : st.queue = none) (hc : st.channel = some c) :
    configurate_queue st kw =
      { state := { st with queue := some (kw.queue.getD ""),
                           basic_ack := some (kw.basic_ack.getD true),
                           prefetch_count := some (kw.prefetch_count.getD 0) },
        ops := ChannelOp.queueDeclare (kw.queue.getD "") (kw.passive.getD false)
                 (kw.durable.getD true) (kw.exclusive.getD false) (kw.auto_delete.getD false)
                 kw.arguments
               :: (if 0 < kw.prefetch_count.getD 0
                     then [ChannelOp.basicQos (kw.prefetch_count.getD 0)] else []),
        error := none } ∧
    (ChannelOp.basicQos (kw.prefetch_count.getD 0) ∈ (configurate_queue st kw).ops ↔
      0 < kw.prefetch_count.getD 0) := by
  have heq : configurate_queue st kw =
      { state := { st with queue := some (kw.queue.getD ""),
                           basic_ack := some (kw.basic_ack.getD true),
                           prefetch_count := some (kw.prefetch_count.getD 0) },
        ops := ChannelOp.queueDeclare (kw.queue.getD "") (kw.passive.getD false)
                 (kw.durable.getD true) (kw.exclusive.getD false) (kw.auto_delete.getD false)
                 kw.arguments
               :: (if 0 < kw.prefetch_count.getD 0
                     then [ChannelOp.basicQos (kw.prefetch_count.getD 0)] else []),
        error := none } := by
    unfold configurate_queue
    rw [hq, hc]
    rfl
  refine ⟨heq, ?_⟩
  rw [heq]
  by_cases hp : 0 < kw.prefetch_count.getD 0
  · simp [hp]
  · simp [hp]

/-- C4 witness: a first call with prefetch_count 5 on the connected fresh
adapter issues a QoS limit of 5, and a first call with all defaults issues
none. -/
theorem configurate_queue_first_call_defaults_witness :
    ChannelOp.basicQos 5 ∈ (configurate_queue connectedFresh { prefetch_count := some 5 }).ops ∧
    ¬ ChannelOp.basicQos 0 ∈ (configurate_queue connectedFresh {}).ops := by
  constructor
  · exact (configurate_queue_first_call_defaults connectedFresh
      { prefetch_count := some 5 } 0 rfl rfl).2.mpr (by decide)
  · intro hmem
    exact absurd ((configurate_queue_first_call_defaults connectedFresh
      {} 0 rfl rfl).2.mp hmem) (by decide)

/-- C6: on an adapter with live channel and connection, close closes the
channel first, then the connection, then clears queue, connection and
channel to None, leaving every other field (config, basic_ack,
prefetch_count, consume_worker) unchanged, and raises nothing. -/
theorem close_clears_references (st : AdapterState) (c co : Nat)
    (hc : st.channel = some c) (hco : st.connection = some co) :
    close st =
      { state := { st with queue := none, connection := none, channel := none },
        ops := [ChannelOp.channelClose, ChannelOp.connectionClose],
        error := none } := by
  unfold close
  rw [hc, hco]

/-- C6 witness: closing the connected configured adapter closes channel then
connection and clears exactly the three references. -/
theorem close_clears_references_witness :
    close connectedConfigured =
      { state := { config := cfgDefault, queue := none, basic_ack := some true,
                   prefetch_count := some 0, connection := none, channel := none,
                   consume_worker := some 7 },
        ops := [ChannelOp.channelClose, ChannelOp.connectionClose],
        error := none } :=
  close_clears_references connectedConfigured 0 0 rfl rfl

/-- C7: when a KeyboardInterrupt arrives while start_consuming blocks on an
adapter with live channel and connection, consume stops consuming, closes
the channel and then the connection, ends with queue, connection and channel
cleared, and raises nothing: the interrupt is absorbed as graceful
shutdown. -/
theorem consume_interrupt_graceful_shutdown (st : AdapterState) (w c co : Nat)
    (hc : st.channel = some c) (hco : st.connection = some co) :
    consume st w ConsumeOutcome.interrupted =
      { state := { st with consume_worker := some w, queue := none, connection := none,
                           channel := none },
        ops := [ChannelOp.basicConsume st.queue, ChannelOp.startConsuming,
                ChannelOp.stopConsuming, ChannelOp.channelClose, ChannelOp.connectionClose],
        error := none } := by
  unfold consume close
  simp only [hc, hco]
  rfl

/-- C7 witness: an interrupt mid-consume on the connected configured adapter
ends closed with references cleared and no error. -/
theorem consume_interrupt_graceful_shutdown_witness :
    consume connectedConfigured 7 ConsumeOutcome.interrupted =
      { state := { config := cfgDefault, queue := none, basic_ack := some true,
                   prefetch_count := some 0, connection := none, channel := none,
                   consume_worker := some 7 },
        ops := [ChannelOp.basicConsume (some "python.publish.test"), ChannelOp.startConsuming,
                ChannelOp.stopConsuming, ChannelOp.channelClose, ChannelOp.connectionClose],
        error := none } :=
  consume_interrupt_graceful_shutdown connectedConfigured 7 0 0 rfl rfl

/-- C10: close has a live-channel precondition and is not idempotent: after
a successful close on a connected adapter (which itself raises nothing), the
channel reference is None, so a second close raises AttributeError on the
cleared channel reference, issues no channel operation and changes no
state. -/
theorem close_second_call_raises (st : AdapterState) (c co : Nat)
    (hc : st.channel = some c) (hco : st.connection = some co) :
    (close st).error = none ∧
    close ((close st).state) =
      { state := (close st).state, ops := [], error := some PyError.attributeError } := by
  have h1 : close st =
      { state := { st with queue := none, connection := none, channel := none },
        ops := [ChannelOp.channelClose, ChannelOp.connectionClose],
        error := none } := by
    unfold close
    rw [hc, hco]
  rw [h1]
  exact ⟨rfl, rfl⟩

/-- C10 witness: closing the connected configured adapter twice raises
AttributeError on the second call while the first call raised nothing. -/
theorem close_second_call_raises_witness :
    (close connectedConfigured).error = none ∧
    close ((close connectedConfigured).state) =
      { state := (close connectedConfigured).state, ops := [],
        error := some PyError.attributeError } :=
  close_second_call_raises connectedConfigured 0 0 rfl rfl

/-- C8: if some connection attempt eventually succeeds, the constructor's
connect loop terminates at some successful attempt m, every attempt before m
failed and was retried, and the adapter ends Connected-NoQueue: connection
and channel hold the handles of attempt m, queue is None, and nothing else
is configured. -/
theorem connect_eventually_connected (config : ConnectionConfig) (attempts : Nat → Bool)
    (h : ∃ n, attempts n = true) :
    ∃ m, initAdapter config attempts h =
        { initialState config with connection := some m, channel := some m } ∧
      attempts m = true ∧ ∀ j, j < m → attempts j = false := by
  refine ⟨connect attempts 0 (by simpa using h), rfl, ?_, ?_⟩
  · exact connect_attempt_true attempts 0 (by simpa using h)
  · intro j hj
    exact connect_min attempts 0 (by simpa using h) j (Nat.zero_le j) hj

/-- A connection-attempt oracle that fails at attempt 0 and succeeds from
attempt 1 on. -/
def attemptsSecondTry : Nat → Bool := fun n => n == 1

/-- C8 witness: with an oracle whose attempt 1 succeeds, construction
terminates in a Connected-NoQueue state at a successful attempt with all
earlier attempts failed. -/
theorem connect_eventually_connected_witness :
    ∃ m, initAdapter cfgDefault attemptsSecondTry ⟨1, rfl⟩ =
        { initialState cfgDefault with connection := some m, channel := some m } ∧
      attemptsSecondTry m = true ∧ ∀ j, j < m → attemptsSecondTry j = false :=
  connect_eventually_connected cfgDefault attemptsSecondTry ⟨1, rfl⟩

/-- Equality of adapter states on every field except basic_ack. -/
def EqExceptBasicAck (s1 s2 : AdapterState) : Prop :=
  s1.config = s2.config ∧ s1.queue = s2.queue ∧ s1.prefetch_count = s2.prefetch_count ∧
  s1.connection = s2.connection ∧ s1.channel = s2.channel ∧
  s1.consume_worker = s2.consume_worker

/-- C9: the stored basic_ack option is never read.  Two adapters whose
states differ only in basic_ack produce identical channel-operation traces
and identical raised exceptions under consume_callback, send, consume and
close, and their successor states again differ at most in basic_ack; in
particular the acknowledgement decision of the consume path is independent
of basic_ack. -/
theorem basic_ack_never_read (s1 s2 : AdapterState) (h : EqExceptBasicAck s1 s2)
    (runWorker : Option Nat → Except PyError Unit) (method : DeliveryMethod)
    (msg : Message) (w : Nat) (outcome : ConsumeOutcome) :
    consume_callback runWorker s1 method = consume_callback runWorker s2 method ∧
    (send s1 msg).ops = (send s2 msg).ops ∧
    (send s1 msg).error = (send s2 msg).error ∧
    EqExceptBasicAck (send s1 msg).state (send s2 msg).state ∧
    (consume s1 w outcome).ops = (consume s2 w outcome).ops ∧
    (consume s1 w outcome).error = (consume s2 w outcome).error ∧
    EqExceptBasicAck (consume s1 w outcome).state (consume s2 w outcome).state ∧
    (close s1).ops = (close s2).ops ∧
    (close s1).error = (close s2).error ∧
    EqExceptBasicAck (close s1).state (close s2).state := by
  obtain ⟨cfg1, q1, ba1, pc1, co1, ch1, wk1⟩ := s1
  obtain ⟨cfg2, q2, ba2, pc2, co2, ch2, wk2⟩ := s2
  obtain ⟨h1, h2, h3, h4, h5, h6⟩ := h
  simp only at h1 h2 h3 h4 h5 h6
  subst h1
  subst h2
  subst h3
  subst h4
  subst h5
  subst h6
  refine ⟨rfl, ?_, ?_, ?_, ?_, ?_, ?_, ?_, ?_, ?_⟩ <;>
    cases ch1 <;> cases co1 <;> cases outcome <;>
      simp [send, consume, close, format_message, EqExceptBasicAck]

/-- The connected configured adapter with basic_ack stored as false. -/
def connectedAckFalse : AdapterState :=
  { connectedConfigured with basic_ack := some false }

/-- A message fixture with empty properties. -/
def msgEmptyProps : Message :=
  { content := { properties := {}, body := "x" } }

/-- C9 witness: the adapter with basic_ack false behaves like the one with
basic_ack true on a delivery and on close, and the delivery with tag 9 is
still acknowledged although basic_ack is false. -/
theorem basic_ack_never_read_witness :
    EqExceptBasicAck connectedAckFalse connectedConfigured ∧
    consume_callback normalWorker connectedAckFalse ⟨9⟩ =
      consume_callback normalWorker connectedConfigured ⟨9⟩ ∧
    (close connectedAckFalse).ops = (close connectedConfigured).ops ∧
    (consume_callback normalWorker connectedAckFalse ⟨9⟩).1 = [ChannelOp.basicAck 9] := by
  have h : EqExceptBasicAck connectedAckFalse connectedConfigured :=
    ⟨rfl, rfl, rfl, rfl, rfl, rfl⟩
  have hall := basic_ack_never_read connectedAckFalse connectedConfigured h
    normalWorker ⟨9⟩ msgEmptyProps 7 ConsumeOutcome.normal
  exact ⟨h, hall.1, hall.2.2.2.2.2.2.2.1, rfl⟩

end MessageQueue
